import Mathlib

/-!
A verification development for a two-period OLG equilibrium solver.

The repository consists of a per-agent utility-maximization wrapper
(Agent.solve, around a numerical constrained optimizer), a market
aggregation routine (Economy.get_market_imbalance), a firm block with a
Cobb-Douglas technology (Firm.solve), a government record, and an outer
bracketed root-finder wrapper (find_equilibrium_R, around a Brent-style
routine).

Real-number arithmetic models the float arithmetic of the source.  The two
external numerical routines (the inner constrained optimizer and the outer
bracketed root-finder) are not part of the repository; their outcomes enter
the embedding as explicit parameters, and the convergence contract the
specification states for the inner optimizer (constraint residual within
1e-9 on success) appears as a hypothesis where a theorem needs it.
-/

/-- A government fiscal policy record: two linear tax rates, government
consumption G, and a lump-sum transfer. -/
structure Government where
  tax_rate_young : ℝ
  tax_rate_old : ℝ
  G : ℝ
  transfer_payment : ℝ

/-- The all-zero policy produced by the Government constructor defaults. -/
def Government.default : Government :=
  { tax_rate_young := 0, tax_rate_old := 0, G := 0, transfer_payment := 0 }

/-- An agent: a utility function over (young, old) consumption and a pair of
endowments. -/
structure Agent where
  utility_func : ℝ → ℝ → ℝ
  endowment_young : ℝ
  endowment_old : ℝ

/-- The record returned by a successful per-agent solve. -/
structure AgentDecision where
  c_young : ℝ
  c_old : ℝ
  savings : ℝ
  utility : ℝ

/-- Modelled from the spec: the outcome of one call to the external inner
constrained optimizer (scipy.optimize.minimize), given the objective, the
equality-constraint function and the initial guess.  none models a run whose
success flag is false; some c models a successful run returning the point c.
The tolerance contract the specification states for a successful run is a
hypothesis of the theorems that need it, not part of this type. -/
abbrev MinimizeFn :=
  ((ℝ × ℝ) → ℝ) → ((ℝ × ℝ) → ℝ) → ℝ × ℝ → Option (ℝ × ℝ)

/-- The lifetime budget-constraint residual of the source: present value of
net-of-tax resources minus present value of consumption. -/
noncomputable def budget_constraint (a : Agent) (R g : ℝ)
    (government : Government) (c : ℝ × ℝ) : ℝ :=
  let net_income_young := a.endowment_young * (1 - government.tax_rate_young)
  let net_income_old :=
    a.endowment_old * (1 - government.tax_rate_old) + government.transfer_payment
  (net_income_young + net_income_old * (1 + g) / R) - (c.1 + c.2 / R)

/-- Agent.solve from the source: build the objective and the budget
constraint, hand them with the initial guess (half of each gross endowment)
to the optimizer, and on success package the decision; savings is net-of-tax
young income minus young consumption. -/
noncomputable def Agent.solve (a : Agent) (R g : ℝ) (government : Government)
    (minimize : MinimizeFn) : Option AgentDecision :=
  match minimize (fun c => -(a.utility_func c.1 c.2))
      (budget_constraint a R g government)
      (a.endowment_young / 2, a.endowment_old / 2) with
  | none => none
  | some c =>
    some { c_young := c.1
           c_old := c.2
           savings := a.endowment_young * (1 - government.tax_rate_young) - c.1
           utility := a.utility_func c.1 c.2 }

/-- The Agent constructor of the source: it stores its arguments and
performs no validation, so it never returns an error. -/
def Agent.init (utility_func : ℝ → ℝ → ℝ) (endowment_young endowment_old : ℝ) :
    Except String Agent :=
  .ok { utility_func := utility_func
        endowment_young := endowment_young
        endowment_old := endowment_old }

/-- A firm with a Cobb-Douglas technology. -/
structure Firm where
  A : ℝ
  alpha : ℝ
  delta : ℝ

/-- The record returned by Firm.solve. -/
structure FirmSolution where
  capital_demand : ℝ
  labor_demand : ℝ
  output : ℝ
  profit : ℝ

/-- Firm.solve from the source: the capital/labor proportion from the
first-order condition for capital, labor demand normalized to 1, output and
profit at those choices. -/
noncomputable def Firm.solve (f : Firm) (r w : ℝ) : FirmSolution :=
  let kl := (f.A * f.alpha / (r + f.delta)) ^ (1 / (1 - f.alpha))
  let L_d : ℝ := 1
  let K_d := kl * L_d
  let output := f.A * K_d ^ f.alpha * L_d ^ (1 - f.alpha)
  let profit := output - (r + f.delta) * K_d - w * L_d
  { capital_demand := K_d, labor_demand := L_d, output := output, profit := profit }

/-- The Firm constructor of the source: it stores its arguments and performs
no validation, so it never returns an error. -/
def Firm.init (A alpha delta : ℝ) : Except String Firm :=
  .ok { A := A, alpha := alpha, delta := delta }

/-- An economy: a population of (agent, share) pairs, a growth rate, an
optional firm, and a government. -/
structure Economy where
  population : List (Agent × ℝ)
  g : ℝ
  firm : Option Firm
  government : Government

/-- The Economy constructor of the source: a missing government argument is
replaced by the all-zero default; no other processing and no validation. -/
def Economy.init (population : List (Agent × ℝ)) (g : ℝ) (firm : Option Firm)
    (government : Option Government) : Except String Economy :=
  .ok { population := population
        g := g
        firm := firm
        government := government.getD Government.default }

/-- A utility function used to build concrete agents in closed statements. -/
def u0 : ℝ → ℝ → ℝ := fun _ _ => 0

/-- The body of the aggregation loop of get_market_imbalance: solve one
agent; on success add weighted savings and weighted endowments to the
accumulator, on failure leave the accumulator unchanged. -/
noncomputable def msStep (R g : ℝ) (gov : Government) (minimize : MinimizeFn)
    (acc : ℝ × ℝ × ℝ) (p : Agent × ℝ) : ℝ × ℝ × ℝ :=
  match (p.1).solve R g gov minimize with
  | none => acc
  | some d =>
    (acc.1 + d.savings * p.2,
     acc.2.1 + p.1.endowment_young * p.2,
     acc.2.2 + p.1.endowment_old * p.2)

/-- The investment block of get_market_imbalance: zero without a firm;
with a firm, the capital demand of Firm.solve at the net rate R - 1 and at
the wage the economy computes from the first-order-condition capital/labor
proportion. -/
noncomputable def investment_of (e : Economy) (R : ℝ) : ℝ :=
  match e.firm with
  | none => 0
  | some f =>
    let r := R - 1
    let kl := (f.A * f.alpha / (r + f.delta)) ^ (1 / (1 - f.alpha))
    let w_eq := f.A * (1 - f.alpha) * kl ^ f.alpha
    (f.solve r w_eq).capital_demand

/-- get_market_imbalance from the source: run the aggregation loop, compute
tax revenue on the accumulated endowment totals, public and national
savings, and return national savings minus investment. -/
noncomputable def Economy.get_market_imbalance (e : Economy) (R : ℝ)
    (minimize : MinimizeFn) : ℝ :=
  let acc := e.population.foldl (msStep R e.g e.government minimize) (0, 0, 0)
  let private_savings := acc.1
  let total_young_endowment := acc.2.1
  let total_old_endowment := acc.2.2
  let investment := investment_of e R
  let tax_rev_young := e.government.tax_rate_young * total_young_endowment
  let tax_rev_old := e.government.tax_rate_old * total_old_endowment
  let total_tax_revenue := tax_rev_young + tax_rev_old
  let public_savings := total_tax_revenue - e.government.G - e.government.transfer_payment
  let national_savings := private_savings + public_savings
  national_savings - investment

/-- The share-weighted sum of the savings of the agents whose solve
succeeded. -/
noncomputable def priv_savings (R g : ℝ) (gov : Government) (minimize : MinimizeFn)
    (pop : List (Agent × ℝ)) : ℝ :=
  (pop.filterMap fun p =>
    ((p.1).solve R g gov minimize).map fun d => d.savings * p.2).sum

/-- The share-weighted sum of the young endowments of the agents whose
solve succeeded: the young tax base actually accumulated by the loop. -/
noncomputable def young_base (R g : ℝ) (gov : Government) (minimize : MinimizeFn)
    (pop : List (Agent × ℝ)) : ℝ :=
  ((pop.filter fun p => ((p.1).solve R g gov minimize).isSome).map
    fun p => p.1.endowment_young * p.2).sum

/-- The share-weighted sum of the old endowments of the agents whose solve
succeeded: the old tax base actually accumulated by the loop. -/
noncomputable def old_base (R g : ℝ) (gov : Government) (minimize : MinimizeFn)
    (pop : List (Agent × ℝ)) : ℝ :=
  ((pop.filter fun p => ((p.1).solve R g gov minimize).isSome).map
    fun p => p.1.endowment_old * p.2).sum

/-- Modelled from the spec: scipy.optimize.brentq is external to the
repository.  It raises a ValueError when the function values at the two
bracket ends have the same sign (positive product), which the source
catches; otherwise it converges to a root of the function, modelled here by
the abstract root parameter. -/
noncomputable def brentq (rootOf : (ℝ → ℝ) → ℝ → ℝ → ℝ) (f : ℝ → ℝ) (a b : ℝ) :
    Except String ℝ :=
  if f a * f b > 0 then .error "f(a) and f(b) must have different signs"
  else .ok (rootOf f a b)

/-- The fixed diagnostic line the source prints when brentq raises; it names
neither the bracket nor the imbalance values measured at its ends. -/
def solver_failure_message : String :=
  "Solver failed: The market imbalance function may not cross zero in the given bracket."

/-- find_equilibrium_R from the source: run brentq on the market-imbalance
function over the bracket; catch the ValueError, print the fixed failure
message, and return the bare failure marker None. -/
noncomputable def find_equilibrium_R (rootOf : (ℝ → ℝ) → ℝ → ℝ → ℝ)
    (e : Economy) (m : MinimizeFn) (R_min R_max : ℝ) : Option ℝ :=
  match brentq rootOf (fun R => e.get_market_imbalance R m) R_min R_max with
  | .ok r => some r
  | .error _ => none

/-- The default bracket carried by the signature of find_equilibrium_R in
the source; it is a single constant pair, not a per-configuration choice. -/
def find_equilibrium_R_defaults : ℝ × ℝ := (1.01, 1.5)

/-- find_equilibrium_R called without an explicit bracket. -/
noncomputable def find_equilibrium_R_default (rootOf : (ℝ → ℝ) → ℝ → ℝ → ℝ)
    (e : Economy) (m : MinimizeFn) : Option ℝ :=
  find_equilibrium_R rootOf e m find_equilibrium_R_defaults.1 find_equilibrium_R_defaults.2

/-- A symmetric unit-endowment agent used in closed statements. -/
def a11 : Agent := { utility_func := u0, endowment_young := 1, endowment_old := 1 }

/-- An agent with endowments 2 and 2. -/
def a22 : Agent := { utility_func := u0, endowment_young := 2, endowment_old := 2 }

/-- An agent endowed only when young, with endowment 10. -/
def a10y : Agent := { utility_func := u0, endowment_young := 10, endowment_old := 0 }

/-- An agent endowed only when young, with endowment 2. -/
def a20 : Agent := { utility_func := u0, endowment_young := 2, endowment_old := 0 }

/-- An agent endowed only when young, with endowment 6. -/
def a60 : Agent := { utility_func := u0, endowment_young := 6, endowment_old := 0 }

/-- An optimizer outcome that always reports success at the point (1, 1). -/
def mSome11 : MinimizeFn := fun _ _ _ => some (1, 1)

/-- An optimizer outcome that always reports success at the point (5, 0). -/
def mSome50 : MinimizeFn := fun _ _ _ => some (5, 0)

/-- An optimizer outcome that always reports failure. -/
def mFail : MinimizeFn := fun _ _ _ => none

/-- An optimizer outcome that reports success at the point (-1, 3), a point
with negative young consumption that satisfies the budget constraint of the
agent a11 exactly. -/
def mNeg : MinimizeFn := fun _ _ _ => some (-1, 3)

/-- The decision Agent.solve packages for a11 from the point (1, 1). -/
def d11 : AgentDecision := { c_young := 1, c_old := 1, savings := 0, utility := 0 }

/-- The decision Agent.solve packages for a11 from the point (-1, 3). -/
def dNeg : AgentDecision := { c_young := -1, c_old := 3, savings := 2, utility := 0 }

/-- A policy taxing young income at one half. -/
noncomputable def gov50 : Government :=
  { tax_rate_young := 1/2, tax_rate_old := 0, G := 0, transfer_payment := 0 }

/-- A policy with government consumption 1 and no taxes or transfers. -/
def govG1 : Government :=
  { tax_rate_young := 0, tax_rate_old := 0, G := 1, transfer_payment := 0 }

/-- A pure-exchange economy with one agent taxed when young. -/
noncomputable def E9 : Economy :=
  { population := [(a10y, 1)], g := 0, firm := none, government := gov50 }

/-- A pure-exchange economy with government consumption 1. -/
def E3g : Economy :=
  { population := [(a22, 1)], g := 0, firm := none, government := govG1 }

/-- A pure-exchange economy with the all-zero default policy. -/
def E3ok : Economy :=
  { population := [(a11, 1)], g := 0, firm := none, government := Government.default }

/-- A pure-exchange economy whose imbalance is the constant 1 under the
optimizer outcome mSome11. -/
def E5a : Economy :=
  { population := [(a20, 1)], g := 0, firm := none, government := Government.default }

/-- A pure-exchange economy whose imbalance is the constant 5 under the
optimizer outcome mSome11. -/
def E5b : Economy :=
  { population := [(a60, 1)], g := 0, firm := none, government := Government.default }

/-- A root value for the abstract success branch of brentq in closed
statements. -/
def rootOf0 : (ℝ → ℝ) → ℝ → ℝ → ℝ := fun _ _ _ => 0

/-- A Cobb-Douglas firm with productivity 1, capital share one half and
depreciation one twentieth. -/
noncomputable def firmW : Firm := { A := 1, alpha := 1/2, delta := 1/20 }

/-- A production economy holding the firm firmW. -/
noncomputable def E4 : Economy :=
  { population := [(a11, 1)], g := 0, firm := some firmW, government := Government.default }


lemma foldl_msStep (R g : ℝ) (gov : Government) (m : MinimizeFn)
    (pop : List (Agent × ℝ)) (acc : ℝ × ℝ × ℝ) :
    pop.foldl (msStep R g gov m) acc
      = (acc.1 + priv_savings R g gov m pop,
         acc.2.1 + young_base R g gov m pop,
         acc.2.2 + old_base R g gov m pop) := by
  induction pop generalizing acc with
  | nil => simp [priv_savings, young_base, old_base]
  | cons p tl ih =>
    cases h : (p.1).solve R g gov m with
    | none =>
      simp [List.foldl_cons, msStep, h, ih, priv_savings, young_base, old_base]
    | some d =>
      simp only [List.foldl_cons, msStep, h, ih, priv_savings, young_base,
        old_base, List.filterMap_cons, List.filter_cons]
      simp [h]
      refine ⟨by ring, by ring, by ring⟩

lemma get_market_imbalance_eq (e : Economy) (R : ℝ) (m : MinimizeFn) :
    e.get_market_imbalance R m
      = priv_savings R e.g e.government m e.population
        + (e.government.tax_rate_young * young_base R e.g e.government m e.population
           + e.government.tax_rate_old * old_base R e.g e.government m e.population
           - e.government.G - e.government.transfer_payment)
        - investment_of e R := by
  unfold Economy.get_market_imbalance
  rw [foldl_msStep]
  simp

/-- Claim C8 (amended): the inner optimizer is seeded from half of each
gross endowment, ignoring taxes and transfers.  An optimizer that returns
its own initial guess exposes the seed: the resulting decision consumes
exactly half of each gross endowment. -/
theorem c8_amended (a : Agent) (R g : ℝ) (gov : Government) :
    a.solve R g gov (fun _ _ x0 => some x0)
      = some { c_young := a.endowment_young / 2
               c_old := a.endowment_old / 2
               savings := a.endowment_young * (1 - gov.tax_rate_young)
                 - a.endowment_young / 2
               utility := a.utility_func (a.endowment_young / 2)
                 (a.endowment_old / 2) } := rfl

/-- Claim C8 counterexample: with a 50 percent tax on young income, the
seed consumption when young is half the gross endowment (10 / 2 = 5), which
differs from half the disposable after-tax resources (10 * (1 - 1/2) / 2 =
2.5).  The optimizer is the probing one that returns its initial guess. -/
theorem c8_counterexample :
    Agent.solve { utility_func := u0, endowment_young := 10, endowment_old := 4 }
        1 0 { tax_rate_young := 1/2, tax_rate_old := 0, G := 0, transfer_payment := 0 }
        (fun _ _ x0 => some x0)
      = some { c_young := 10 / 2
               c_old := 4 / 2
               savings := 10 * (1 - 1/2) - 10 / 2
               utility := 0 }
    ∧ ¬ ((10 : ℝ) / 2 = 10 * (1 - 1/2) / 2) := by
  refine ⟨rfl, ?_⟩
  norm_num

/-- Claim C6 (amended): none of the constructors validates its inputs; every
argument list is accepted unchanged and no descriptive error is ever
produced at construction time. -/
theorem c6_amended (u : ℝ → ℝ → ℝ) (ey eo A alpha delta g : ℝ)
    (pop : List (Agent × ℝ)) (firm : Option Firm) (gov : Option Government) :
    Agent.init u ey eo
        = .ok { utility_func := u, endowment_young := ey, endowment_old := eo }
    ∧ Firm.init A alpha delta = .ok { A := A, alpha := alpha, delta := delta }
    ∧ Economy.init pop g firm gov
        = .ok { population := pop, g := g, firm := firm,
                government := gov.getD Government.default } :=
  ⟨rfl, rfl, rfl⟩

/-- Claim C6 counterexample: a negative endowment, a capital share of 2
(outside (0,1)) and a population whose single share is 1/3 (shares not
summing to 1) are all accepted at construction time instead of being
rejected with a descriptive error. -/
theorem c6_counterexample :
    Agent.init u0 (-1) 1
        = .ok { utility_func := u0, endowment_young := -1, endowment_old := 1 }
    ∧ Firm.init 1 2 (1/20) = .ok { A := 1, alpha := 2, delta := 1/20 }
    ∧ Economy.init
          [({ utility_func := u0, endowment_young := 1, endowment_old := 1 }, 1/3)]
          0 none none
        = .ok { population :=
                  [({ utility_func := u0, endowment_young := 1, endowment_old := 1 }, 1/3)]
                g := 0
                firm := none
                government := Government.default } :=
  ⟨rfl, rfl, rfl⟩

/-- Claim C1 (amended): whenever the inner optimizer reports success and, as
the specification requires of a converged run, the budget-constraint
residual at the returned point is within 1e-9, the decision Agent.solve
packages satisfies the budget identity to within 1e-6 and its savings field
equals after-tax young income minus young consumption.  Positivity of the
two consumption entries is not part of the guarantee: nothing in the source
constrains the optimizer to positive consumption. -/
theorem c1_amended (a : Agent) (R g : ℝ) (gov : Government) (m : MinimizeFn)
    (d : AgentDecision)
    (_hey : 0 < a.endowment_young) (_heo : 0 < a.endowment_old) (_hR : R ≠ 0)
    (hm : ∀ c, m (fun c => -(a.utility_func c.1 c.2)) (budget_constraint a R g gov)
        (a.endowment_young / 2, a.endowment_old / 2) = some c →
        |budget_constraint a R g gov c| ≤ 1e-9)
    (hd : a.solve R g gov m = some d) :
    d.savings = a.endowment_young * (1 - gov.tax_rate_young) - d.c_young
    ∧ |a.endowment_young * (1 - gov.tax_rate_young)
        + (a.endowment_old * (1 - gov.tax_rate_old) + gov.transfer_payment)
          * (1 + g) / R
        - d.c_young - d.c_old / R| < 1e-6 := by
  unfold Agent.solve at hd
  cases hc : m (fun c => -(a.utility_func c.1 c.2)) (budget_constraint a R g gov)
      (a.endowment_young / 2, a.endowment_old / 2) with
  | none => rw [hc] at hd; exact absurd hd (by simp)
  | some c =>
    rw [hc] at hd
    simp only [Option.some.injEq] at hd
    subst hd
    refine ⟨rfl, ?_⟩
    have hb := hm c hc
    have hEq : a.endowment_young * (1 - gov.tax_rate_young)
        + (a.endowment_old * (1 - gov.tax_rate_old) + gov.transfer_payment)
          * (1 + g) / R
        - c.1 - c.2 / R = budget_constraint a R g gov c := by
      simp only [budget_constraint]
      ring
    calc |a.endowment_young * (1 - gov.tax_rate_young)
        + (a.endowment_old * (1 - gov.tax_rate_old) + gov.transfer_payment)
          * (1 + g) / R
        - c.1 - c.2 / R|
        = |budget_constraint a R g gov c| := by rw [hEq]
      _ ≤ 1e-9 := hb
      _ < 1e-6 := by norm_num

/-- Claim C1 witness: the amended guarantee instantiated at the unit-endowed
agent a11, R = 1, g = 0, the default policy, and an optimizer run that
succeeds at (1, 1), where the budget residual is exactly zero. -/
theorem c1_witness :
    (0 : ℝ) < a11.endowment_young ∧ (0 : ℝ) < a11.endowment_old ∧ (1 : ℝ) ≠ 0
    ∧ (d11.savings = a11.endowment_young * (1 - Government.default.tax_rate_young)
          - d11.c_young
       ∧ |a11.endowment_young * (1 - Government.default.tax_rate_young)
           + (a11.endowment_old * (1 - Government.default.tax_rate_old)
              + Government.default.transfer_payment) * (1 + 0) / 1
           - d11.c_young - d11.c_old / 1| < 1e-6) := by
  refine ⟨by norm_num [a11], by norm_num [a11], by norm_num, ?_⟩
  refine c1_amended a11 1 0 Government.default mSome11 d11
      (by norm_num [a11]) (by norm_num [a11]) (by norm_num) ?_ ?_
  · intro c hc
    simp only [mSome11, Option.some.injEq] at hc
    subst hc
    norm_num [budget_constraint, a11, Government.default]
  · simp [Agent.solve, a11, u0, mSome11, d11, Government.default]

/-- Claim C1 counterexample: at the agent a11 (positive endowments), R = 1,
g = 0 and the default policy, an optimizer run that reports success at
(-1, 3) meets the stated 1e-9 residual tolerance exactly (the residual is
zero), yet the successful decision returned by Agent.solve has negative
young consumption, refuting the claimed guarantee that c_young is positive
on success. -/
theorem c1_counterexample :
    (0 : ℝ) < a11.endowment_young ∧ (0 : ℝ) < a11.endowment_old ∧ (1 : ℝ) ≠ 0
    ∧ |budget_constraint a11 1 0 Government.default (-1, 3)| ≤ 1e-9
    ∧ a11.solve 1 0 Government.default mNeg = some dNeg
    ∧ ¬ (0 < dNeg.c_young) := by
  refine ⟨by norm_num [a11], by norm_num [a11], by norm_num, ?_, ?_, ?_⟩
  · norm_num [budget_constraint, a11, Government.default]
  · simp [Agent.solve, a11, u0, mNeg, dNeg, Government.default]
    norm_num
  · norm_num [dNeg]

/-- Claim C2: a failed per-agent solve contributes exactly zero to the
aggregate; the market imbalance is still defined and equals the imbalance of
the economy with that agent removed, and no error escapes to the outer
root-finder. -/
theorem c2_failed_agent (pop1 pop2 : List (Agent × ℝ)) (g : ℝ)
    (firm : Option Firm) (gov : Government) (a : Agent) (s R : ℝ)
    (m : MinimizeFn) (hfail : a.solve R g gov m = none) :
    Economy.get_market_imbalance
        { population := pop1 ++ (a, s) :: pop2, g := g, firm := firm,
          government := gov } R m
      = Economy.get_market_imbalance
        { population := pop1 ++ pop2, g := g, firm := firm,
          government := gov } R m := by
  rw [get_market_imbalance_eq, get_market_imbalance_eq]
  simp [priv_savings, young_base, old_base, investment_of, hfail]

/-- Claim C2 witness: an economy whose single agent fails to solve has the
same market imbalance as the empty economy. -/
theorem c2_witness :
    a11.solve 1 0 Government.default mFail = none
    ∧ Economy.get_market_imbalance
        { population := [] ++ (a11, 1) :: [], g := 0, firm := none,
          government := Government.default } 1 mFail
      = Economy.get_market_imbalance
        { population := ([] : List (Agent × ℝ)) ++ [], g := 0, firm := none,
          government := Government.default } 1 mFail :=
  ⟨rfl, c2_failed_agent [] [] 0 none Government.default a11 1 1 mFail rfl⟩

/-- Claim C9: the endowment totals feeding the tax computation are
accumulated only over the agents whose solve succeeded, so a failed agent is
removed from the tax base, and the imbalance therefore depends on which
inner optimizations converged: in the concrete economy E9 (young income
taxed at one half, agent saving zero on success) the imbalance is 5 when the
solve succeeds and 0 when it fails. -/
theorem c9_tax_base_excludes_failed_agents :
    (∀ (e : Economy) (R : ℝ) (m : MinimizeFn),
      e.get_market_imbalance R m
        = priv_savings R e.g e.government m e.population
          + (e.government.tax_rate_young
               * young_base R e.g e.government m e.population
             + e.government.tax_rate_old
               * old_base R e.g e.government m e.population
             - e.government.G - e.government.transfer_payment)
          - investment_of e R)
    ∧ Economy.get_market_imbalance E9 1 mSome50 = 5
    ∧ Economy.get_market_imbalance E9 1 mFail = 0 := by
  refine ⟨fun e R m => get_market_imbalance_eq e R m, ?_, ?_⟩
  · simp [Economy.get_market_imbalance, msStep, Agent.solve, investment_of,
      E9, mSome50, gov50, a10y, u0]
    norm_num
  · simp [Economy.get_market_imbalance, msStep, Agent.solve, investment_of,
      E9, mFail, gov50, a10y, u0]

/-- Claim C3 (amended): with no production technology attached the market
imbalance equals aggregate private savings plus public savings (tax revenue
on the success-filtered endowment totals minus government consumption minus
transfers); it reduces to aggregate private savings exactly when the policy
is the all-zero default. -/
theorem c3_amended (e : Economy) (R : ℝ) (m : MinimizeFn)
    (hf : e.firm = none) :
    e.get_market_imbalance R m
      = priv_savings R e.g e.government m e.population
        + (e.government.tax_rate_young
             * young_base R e.g e.government m e.population
           + e.government.tax_rate_old
             * old_base R e.g e.government m e.population
           - e.government.G - e.government.transfer_payment)
    ∧ (e.government = Government.default →
        e.get_market_imbalance R m
          = priv_savings R e.g e.government m e.population) := by
  have h1 := get_market_imbalance_eq e R m
  have hinv : investment_of e R = 0 := by simp [investment_of, hf]
  rw [hinv, sub_zero] at h1
  refine ⟨h1, fun hg => ?_⟩
  rw [h1, hg]
  simp [Government.default]

/-- Claim C3 witness: the amended statement instantiated at a pure-exchange
economy with the default policy and a successful per-agent solve. -/
theorem c3_witness :
    E3ok.firm = none
    ∧ (Economy.get_market_imbalance E3ok 1 mSome11
        = priv_savings 1 E3ok.g E3ok.government mSome11 E3ok.population
          + (E3ok.government.tax_rate_young
               * young_base 1 E3ok.g E3ok.government mSome11 E3ok.population
             + E3ok.government.tax_rate_old
               * old_base 1 E3ok.g E3ok.government mSome11 E3ok.population
             - E3ok.government.G - E3ok.government.transfer_payment)
       ∧ (E3ok.government = Government.default →
           Economy.get_market_imbalance E3ok 1 mSome11
             = priv_savings 1 E3ok.g E3ok.government mSome11 E3ok.population)) :=
  ⟨rfl, c3_amended E3ok 1 mSome11 rfl⟩

/-- Claim C3 counterexample: in the pure-exchange economy E3g, whose policy
has government consumption 1 and no taxes, the imbalance at R = 1 is 0 while
aggregate private savings is 1, so with a fiscal policy attached the
imbalance of a no-firm economy is not aggregate private savings. -/
theorem c3_counterexample :
    E3g.firm = none
    ∧ Economy.get_market_imbalance E3g 1 mSome11 = 0
    ∧ priv_savings 1 E3g.g E3g.government mSome11 E3g.population = 1
    ∧ (0 : ℝ) ≠ 1 := by
  refine ⟨rfl, ?_, ?_, by norm_num⟩
  · simp [Economy.get_market_imbalance, msStep, Agent.solve, investment_of,
      E3g, mSome11, govG1, a22, u0]
    norm_num
  · simp [priv_savings, Agent.solve, E3g, mSome11, govG1, a22, u0]
    norm_num

/-- Claim C4: with a firm attached and a positive user cost (R - 1) + delta,
the market imbalance is national savings (private plus public, both over the
success-filtered population) minus investment, and investment is the
capital demand from the first-order condition for capital with labor
normalized to 1. -/
theorem c4_production_imbalance (e : Economy) (R : ℝ) (m : MinimizeFn)
    (f : Firm) (hf : e.firm = some f) (_hpos : 0 < (R - 1) + f.delta) :
    e.get_market_imbalance R m
      = (priv_savings R e.g e.government m e.population
         + (e.government.tax_rate_young
              * young_base R e.g e.government m e.population
            + e.government.tax_rate_old
              * old_base R e.g e.government m e.population
            - e.government.G - e.government.transfer_payment))
        - (f.A * f.alpha / ((R - 1) + f.delta)) ^ (1 / (1 - f.alpha)) := by
  rw [get_market_imbalance_eq]
  have hinv : investment_of e R
      = (f.A * f.alpha / ((R - 1) + f.delta)) ^ (1 / (1 - f.alpha)) := by
    simp [investment_of, hf, Firm.solve]
  rw [hinv]

/-- Claim C4 witness: the production-economy identity instantiated at E4
(firm with A = 1, alpha = 1/2, delta = 1/20) and R = 3/2. -/
theorem c4_witness :
    E4.firm = some firmW
    ∧ 0 < ((3/2 : ℝ) - 1) + firmW.delta
    ∧ Economy.get_market_imbalance E4 (3/2) mSome11
        = (priv_savings (3/2) E4.g E4.government mSome11 E4.population
           + (E4.government.tax_rate_young
                * young_base (3/2) E4.g E4.government mSome11 E4.population
              + E4.government.tax_rate_old
                * old_base (3/2) E4.g E4.government mSome11 E4.population
              - E4.government.G - E4.government.transfer_payment))
          - (firmW.A * firmW.alpha / (((3/2 : ℝ) - 1) + firmW.delta))
              ^ (1 / (1 - firmW.alpha)) :=
  ⟨rfl, by norm_num [firmW],
   c4_production_imbalance E4 (3/2) mSome11 firmW rfl (by norm_num [firmW])⟩

/-- Claim C10: at the wage the economy computes from the
first-order-condition capital/labor proportion, the firm solution has
exactly zero profit and labor demand exactly 1. -/
theorem c10_zero_profit (f : Firm) (r : ℝ)
    (hA : 0 < f.A) (ha0 : 0 < f.alpha) (ha1 : f.alpha < 1)
    (hr : 0 < r + f.delta) :
    (f.solve r (f.A * (1 - f.alpha)
        * ((f.A * f.alpha / (r + f.delta)) ^ (1 / (1 - f.alpha)))
            ^ f.alpha)).profit = 0
    ∧ (f.solve r (f.A * (1 - f.alpha)
        * ((f.A * f.alpha / (r + f.delta)) ^ (1 / (1 - f.alpha)))
            ^ f.alpha)).labor_demand = 1 := by
  have hx : 0 < f.A * f.alpha / (r + f.delta) := div_pos (mul_pos hA ha0) hr
  have hkl : 0 < (f.A * f.alpha / (r + f.delta)) ^ (1 / (1 - f.alpha)) :=
    Real.rpow_pos_of_pos hx _
  have h1a : (1 : ℝ) - f.alpha ≠ 0 := by
    have : 0 < 1 - f.alpha := by linarith
    exact this.ne'
  have hklpow : ((f.A * f.alpha / (r + f.delta)) ^ (1 / (1 - f.alpha)))
      ^ (1 - f.alpha) = f.A * f.alpha / (r + f.delta) := by
    rw [← Real.rpow_mul hx.le, one_div_mul_cancel h1a, Real.rpow_one]
  have hkl_split : (f.A * f.alpha / (r + f.delta)) ^ (1 / (1 - f.alpha))
      = (f.A * f.alpha / (r + f.delta))
        * ((f.A * f.alpha / (r + f.delta)) ^ (1 / (1 - f.alpha))) ^ f.alpha := by
    calc (f.A * f.alpha / (r + f.delta)) ^ (1 / (1 - f.alpha))
        = ((f.A * f.alpha / (r + f.delta)) ^ (1 / (1 - f.alpha))) ^ (1 : ℝ) :=
          (Real.rpow_one _).symm
      _ = ((f.A * f.alpha / (r + f.delta)) ^ (1 / (1 - f.alpha)))
            ^ ((1 - f.alpha) + f.alpha) := by
          congr 1
          ring
      _ = (f.A * f.alpha / (r + f.delta))
            * ((f.A * f.alpha / (r + f.delta)) ^ (1 / (1 - f.alpha)))
                ^ f.alpha := by
          rw [Real.rpow_add hkl, hklpow]
  constructor
  · simp only [Firm.solve, mul_one, Real.one_rpow]
    nth_rewrite 2 [hkl_split]
    have hxmul : (r + f.delta) * (f.A * f.alpha / (r + f.delta))
        = f.A * f.alpha := by
      field_simp
    linear_combination
      (-(((f.A * f.alpha / (r + f.delta)) ^ (1 / (1 - f.alpha))) ^ f.alpha))
        * hxmul
  · simp [Firm.solve]

/-- Claim C10 witness: the zero-profit identity instantiated at the firm
with A = 1, alpha = 1/2, delta = 1/20 and the net rate r = 1. -/
theorem c10_witness :
    0 < firmW.A ∧ 0 < firmW.alpha ∧ firmW.alpha < 1 ∧ 0 < (1 : ℝ) + firmW.delta
    ∧ (firmW.solve 1 (firmW.A * (1 - firmW.alpha)
        * ((firmW.A * firmW.alpha / (1 + firmW.delta)) ^ (1 / (1 - firmW.alpha)))
            ^ firmW.alpha)).profit = 0
    ∧ (firmW.solve 1 (firmW.A * (1 - firmW.alpha)
        * ((firmW.A * firmW.alpha / (1 + firmW.delta)) ^ (1 / (1 - firmW.alpha)))
            ^ firmW.alpha)).labor_demand = 1 := by
  refine ⟨by norm_num [firmW], by norm_num [firmW], by norm_num [firmW],
    by norm_num [firmW], ?_, ?_⟩
  · exact (c10_zero_profit firmW 1 (by norm_num [firmW]) (by norm_num [firmW])
      (by norm_num [firmW]) (by norm_num [firmW])).1
  · exact (c10_zero_profit firmW 1 (by norm_num [firmW]) (by norm_num [firmW])
      (by norm_num [firmW]) (by norm_num [firmW])).2

/-- Claim C5 (amended): when the imbalance values at the two bracket ends
have the same sign (positive product), find_equilibrium_R returns the bare
failure marker None after printing a fixed diagnostic line; it never raises,
but the failure carries neither the offending bracket nor the measured
imbalance values. -/
theorem c5_amended (rootOf : (ℝ → ℝ) → ℝ → ℝ → ℝ) (e : Economy)
    (m : MinimizeFn) (R_min R_max : ℝ)
    (hsign : e.get_market_imbalance R_min m * e.get_market_imbalance R_max m
      > 0) :
    find_equilibrium_R rootOf e m R_min R_max = none := by
  simp [find_equilibrium_R, brentq, hsign]

/-- Claim C5 witness: the bracketing-failure branch instantiated at the
economy E5a (constant imbalance 1) over the bracket from 2 to 3. -/
theorem c5_witness :
    Economy.get_market_imbalance E5a 2 mSome11
        * Economy.get_market_imbalance E5a 3 mSome11 > 0
    ∧ find_equilibrium_R rootOf0 E5a mSome11 2 3 = none := by
  have h2 : Economy.get_market_imbalance E5a 2 mSome11 = 1 := by
    simp [Economy.get_market_imbalance, msStep, Agent.solve, investment_of,
      E5a, mSome11, Government.default, a20, u0]
    norm_num
  have h3 : Economy.get_market_imbalance E5a 3 mSome11 = 1 := by
    simp [Economy.get_market_imbalance, msStep, Agent.solve, investment_of,
      E5a, mSome11, Government.default, a20, u0]
    norm_num
  have hsign : Economy.get_market_imbalance E5a 2 mSome11
      * Economy.get_market_imbalance E5a 3 mSome11 > 0 := by
    rw [h2, h3]; norm_num
  exact ⟨hsign, c5_amended rootOf0 E5a mSome11 2 3 hsign⟩

/-- Claim C5 counterexample: two bracketing failures on different economies
and different brackets, with different measured endpoint imbalances (1 and
5), both return the identical bare value None, and the printed diagnostic is
a fixed string; the failure therefore cannot carry the offending bracket or
the measured endpoint values that the claim says it includes. -/
theorem c5_counterexample :
    find_equilibrium_R rootOf0 E5a mSome11 2 3 = none
    ∧ find_equilibrium_R rootOf0 E5b mSome11 (4/5) (3/2) = none
    ∧ Economy.get_market_imbalance E5a 2 mSome11 = 1
    ∧ Economy.get_market_imbalance E5b (4/5) mSome11 = 5
    ∧ solver_failure_message
        = "Solver failed: The market imbalance function may not cross zero in the given bracket."
    ∧ ((2 : ℝ), (3 : ℝ)) ≠ ((4/5 : ℝ), (3/2 : ℝ)) := by
  have hA2 : Economy.get_market_imbalance E5a 2 mSome11 = 1 := by
    simp [Economy.get_market_imbalance, msStep, Agent.solve, investment_of,
      E5a, mSome11, Government.default, a20, u0]
    norm_num
  have hA3 : Economy.get_market_imbalance E5a 3 mSome11 = 1 := by
    simp [Economy.get_market_imbalance, msStep, Agent.solve, investment_of,
      E5a, mSome11, Government.default, a20, u0]
    norm_num
  have hB1 : Economy.get_market_imbalance E5b (4/5) mSome11 = 5 := by
    simp [Economy.get_market_imbalance, msStep, Agent.solve, investment_of,
      E5b, mSome11, Government.default, a60, u0]
    norm_num
  have hB2 : Economy.get_market_imbalance E5b (3/2) mSome11 = 5 := by
    simp [Economy.get_market_imbalance, msStep, Agent.solve, investment_of,
      E5b, mSome11, Government.default, a60, u0]
    norm_num
  refine ⟨?_, ?_, hA2, hB1, rfl, ?_⟩
  · simp [find_equilibrium_R, brentq, hA2, hA3]
  · simp [find_equilibrium_R, brentq, hB1, hB2]
  · norm_num [Prod.ext_iff]

/-- Claim C7 (amended): the bracket used when the caller supplies none is
the single constant pair (1.01, 1.5) for every economy, pure exchange or
production alike; it is not chosen per configuration. -/
theorem c7_amended (rootOf : (ℝ → ℝ) → ℝ → ℝ → ℝ) (e : Economy)
    (m : MinimizeFn) :
    find_equilibrium_R_defaults = (1.01, 1.5)
    ∧ find_equilibrium_R_default rootOf e m
        = find_equilibrium_R rootOf e m 1.01 1.5 :=
  ⟨rfl, rfl⟩

/-- Claim C7 counterexample: the default bracket is (1.01, 1.5) and differs
from the (0.8, 1.5) default the claim attributes to pure-exchange
configurations. -/
theorem c7_counterexample :
    find_equilibrium_R_defaults = (1.01, 1.5)
    ∧ find_equilibrium_R_defaults ≠ (0.8, 1.5) := by
  refine ⟨rfl, ?_⟩
  simp only [find_equilibrium_R_defaults, ne_eq, Prod.mk.injEq, not_and]
  intro h
  norm_num at h
